import Mathlib

/-!
Shallow embedding of `wikitextprocessor/dumpparser.py` (the event-based
tree-walker path of `DumpParser.__iter__`, with its helpers
`add_namespace` and `make_wikipage`).

The Python code drives `xml.etree.ElementTree.iterparse` over the dump
and reacts only to the `end` events of `<namespace>` and `<page>`
elements (dispatch table `tag2fn`).  Since neither of those element
kinds nests inside the other in a MediaWiki export, the sequence of
dispatched events is exactly the document-order list of those elements.
We therefore model the input as a `List Item`, where each item carries
the fields of one element that the Python functions read:

* `make_wikipage` reads `findtext("title")`, `findtext("./revision/text")`,
  `findtext("ns")`, `findtext("./revision/model")` (each `Option String`:
  `none` when no matching element exists; `findtext` yields `""` for an
  empty element) and `find("redirect")` with its `title` attribute.
* `add_namespace` reads `elem.text` (`Option String`) and
  `elem.attrib["key"]` (a `KeyError` when absent).

Python `dict` lookups that may raise `KeyError` are modelled with
`Except DumpError`; the generator that yields pages and stops at the
first raised exception is modelled by `runItems`, which returns the
pages yielded before the error, the registry state at that point, and
the error (if any).
-/

namespace WikitextDump

/-- One `<namespace key="...">Name</namespace>` declaration element as
`add_namespace` sees it: the `key` attribute (absent attribute modelled
as `none`) and the element text (`None` in Python for a self-closing
tag). -/
structure NamespaceElem where
  keyAttr : Option String
  text : Option String
  deriving DecidableEq, Repr

/-- A `<redirect .../>` child element: only its `title` attribute is
read by `make_wikipage` (`attrib["title"]`, a `KeyError` when absent). -/
structure RedirectElem where
  titleAttr : Option String
  deriving DecidableEq, Repr

/-- A `<page>` element as `make_wikipage` sees it: the results of the
`findtext` calls on its subtree and the optional direct `<redirect>`
child. -/
structure PageElem where
  title : Option String
  nsKey : Option String
  revText : Option String
  revModel : Option String
  redirect : Option RedirectElem
  deriving DecidableEq, Repr

/-- `WikiNamespace` from the source: `ns` is the namespace name, `key`
its string key. -/
structure WikiNamespace where
  ns : String
  key : String
  deriving DecidableEq, Repr

/-- `WikiPage` from the source.  `title`, `text`, `model`, `redirect`
are all optional because the Python constructor is handed whatever
`findtext`/`attrib` produced, including `None`. -/
structure WikiPage where
  title : Option String
  text : Option String
  model : Option String
  ns : WikiNamespace
  redirect : Option String
  deriving DecidableEq, Repr

/-- The `KeyError`s the parser can raise, tagged by raise site. -/
inductive DumpError where
  /-- `elem.attrib["key"]` in `add_namespace` -/
  | missingKeyAttr : DumpError
  /-- `self.key2ns[key]` in `make_wikipage`; carries the unresolved key
  (`none` when the page had no `<ns>` element at all). -/
  | unknownNamespaceKey : Option String → DumpError
  /-- `redirect_elem.attrib["title"]` in `make_wikipage` -/
  | missingRedirectTitleAttr : DumpError
  deriving DecidableEq, Repr

/-- Insert-or-overwrite for a string-keyed association list, modelling
assignment into a Python `dict`.  Keys stay pairwise distinct. -/
def insertKV (m : List (String × String)) (k v : String) :
    List (String × String) :=
  (k, v) :: m.filter (fun p => p.1 ≠ k)

/-- The parser's two dictionaries `key2ns` and `ns2key`. -/
structure Registry where
  key2ns : List (String × String)
  ns2key : List (String × String)
  deriving DecidableEq, Repr

/-- Both dictionaries start empty in `DumpParser.__init__`. -/
def Registry.empty : Registry := ⟨[], []⟩

/-- `add_namespace(elem)`: `ns = elem.text or ""`, then
`key = elem.attrib["key"]` (raising when absent, before any insertion),
then insert `key→ns` into `key2ns` and `ns→key` into `ns2key`. -/
def add_namespace (reg : Registry) (elem : NamespaceElem) :
    Except DumpError Registry :=
  let ns := elem.text.getD ""
  match elem.keyAttr with
  | none => .error .missingKeyAttr
  | some key =>
    .ok { key2ns := insertKV reg.key2ns key ns,
          ns2key := insertKV reg.ns2key ns key }

/-- `make_wikipage(elem)`: gather `title`, `./revision/text`, `ns`,
resolve the namespace via `key2ns` (raising `KeyError` on an unknown or
absent key), gather `./revision/model`; if a `<redirect>` child exists,
take its `title` attribute and overwrite `model` with `"redirect"`;
build the `WikiPage`. -/
def make_wikipage (reg : Registry) (elem : PageElem) :
    Except DumpError WikiPage :=
  let title := elem.title
  let text := elem.revText
  match elem.nsKey with
  | none => .error (.unknownNamespaceKey none)
  | some key =>
    match reg.key2ns.lookup key with
    | none => .error (.unknownNamespaceKey (some key))
    | some ns =>
      let model := elem.revModel
      match elem.redirect with
      | none =>
        .ok { title := title, text := text, model := model,
              ns := ⟨ns, key⟩, redirect := none }
      | some r =>
        match r.titleAttr with
        | none => .error .missingRedirectTitleAttr
        | some t =>
          .ok { title := title, text := text, model := some "redirect",
                ns := ⟨ns, key⟩, redirect := some t }

/-- An element whose `end` event is dispatched by `tag2fn`, in document
order. -/
inductive Item where
  | namespaceDecl : NamespaceElem → Item
  | page : PageElem → Item
  deriving DecidableEq, Repr

/-- Outcome of driving the generator to exhaustion (or to its first
raised exception): the pages yielded so far in order, the registry
state at the end (which `DumpParser` keeps inspectable afterwards), and
the exception, if one was raised. -/
structure RunResult where
  pages : List WikiPage
  registry : Registry
  err : Option DumpError
  deriving DecidableEq, Repr

/-- The dispatch loop of `DumpParser.__iter__`: process each element's
`end` event in document order, updating the registry on `<namespace>`
and yielding one record per `<page>`; a raised `KeyError` terminates
the sequence at that point. -/
def runItems (reg : Registry) : List Item → RunResult
  | [] => ⟨[], reg, none⟩
  | .namespaceDecl e :: rest =>
    match add_namespace reg e with
    | .error err => ⟨[], reg, some err⟩
    | .ok reg2 => runItems reg2 rest
  | .page e :: rest =>
    match make_wikipage reg e with
    | .error err => ⟨[], reg, some err⟩
    | .ok p =>
      let r := runItems reg rest
      ⟨p :: r.pages, r.registry, r.err⟩

/-- A full iteration of a freshly constructed `DumpParser` over a dump. -/
def DumpParser.iter (items : List Item) : RunResult :=
  runItems Registry.empty items

/-- The namespace-declaration elements of a dump, in document order. -/
def declsOf (items : List Item) : List NamespaceElem :=
  items.filterMap (fun it =>
    match it with
    | .namespaceDecl e => some e
    | .page _ => none)

/-- The `key` attributes carried by the namespace declarations. -/
def declKeys (items : List Item) : List String :=
  (declsOf items).filterMap (·.keyAttr)

/-- Number of `<namespace>` declaration elements. -/
def countDecls (items : List Item) : Nat := (declsOf items).length

/-- Number of `<page>` elements. -/
def countPages (items : List Item) : Nat :=
  items.countP (fun it =>
    match it with
    | .page _ => true
    | .namespaceDecl _ => false)

/-- Registry obtained by replaying only the namespace declarations
(ignoring a declaration that would raise; used under hypotheses that
rule the error out). -/
def foldRegistry (reg : Registry) : List NamespaceElem → Registry
  | [] => reg
  | e :: rest =>
    match add_namespace reg e with
    | .error _ => reg
    | .ok reg2 => foldRegistry reg2 rest

/-- The keys of an association list. -/
def keysOf (m : List (String × String)) : List String := m.map Prod.fst

theorem insertKV_lookup_self (m : List (String × String)) (k v : String) :
    (insertKV m k v).lookup k = some v := by
  simp [insertKV, List.lookup]

theorem filter_ne_key_of_fresh (m : List (String × String)) (k : String)
    (h : k ∉ keysOf m) : m.filter (fun p => p.1 ≠ k) = m := by
  apply List.filter_eq_self.mpr
  intro p hp
  have hmem : p.1 ∈ keysOf m := List.mem_map_of_mem Prod.fst hp
  simp only [decide_eq_true_eq]
  exact fun he => h (he ▸ hmem)

theorem insertKV_fresh_keys (m : List (String × String)) (k v : String)
    (h : k ∉ keysOf m) : keysOf (insertKV m k v) = k :: keysOf m := by
  unfold insertKV
  rw [filter_ne_key_of_fresh m k h]
  rfl

theorem insertKV_fresh_length (m : List (String × String)) (k v : String)
    (h : k ∉ keysOf m) : (insertKV m k v).length = m.length + 1 := by
  unfold insertKV
  rw [filter_ne_key_of_fresh m k h]
  rfl

theorem runItems_nil (reg : Registry) : runItems reg [] = ⟨[], reg, none⟩ := rfl

theorem runItems_cons_decl_ok (reg reg2 : Registry) (e : NamespaceElem)
    (rest : List Item) (h : add_namespace reg e = .ok reg2) :
    runItems reg (.namespaceDecl e :: rest) = runItems reg2 rest := by
  simp [runItems, h]

theorem runItems_cons_page_ok (reg : Registry) (e : PageElem) (p : WikiPage)
    (rest : List Item) (h : make_wikipage reg e = .ok p) :
    runItems reg (.page e :: rest) =
      ⟨p :: (runItems reg rest).pages, (runItems reg rest).registry,
       (runItems reg rest).err⟩ := by
  simp [runItems, h]

/-- If a prefix of the dump runs without error, running the whole dump
first yields the prefix's records, then continues from the registry the
prefix produced: records come out in document order. -/
theorem runItems_append (l1 l2 : List Item) :
    ∀ reg : Registry, (runItems reg l1).err = none →
      runItems reg (l1 ++ l2) =
        ⟨(runItems reg l1).pages ++ (runItems (runItems reg l1).registry l2).pages,
         (runItems (runItems reg l1).registry l2).registry,
         (runItems (runItems reg l1).registry l2).err⟩ := by
  induction l1 with
  | nil => intro reg _; simp [runItems_nil]
  | cons it rest ih =>
    intro reg h
    cases it with
    | namespaceDecl e =>
      cases hadd : add_namespace reg e with
      | error err =>
        rw [runItems] at h
        simp [hadd] at h
      | ok reg2 =>
        rw [runItems_cons_decl_ok reg reg2 e rest hadd] at h
        rw [List.cons_append, runItems_cons_decl_ok reg reg2 e (rest ++ l2) hadd,
            runItems_cons_decl_ok reg reg2 e rest hadd]
        exact ih reg2 h
    | page e =>
      cases hmk : make_wikipage reg e with
      | error err =>
        rw [runItems] at h
        simp [hmk] at h
      | ok p =>
        rw [runItems_cons_page_ok reg e p rest hmk] at h
        simp at h
        rw [List.cons_append, runItems_cons_page_ok reg e p (rest ++ l2) hmk,
            runItems_cons_page_ok reg e p rest hmk, ih reg h]
        simp

/-- If the whole run is error-free, so is the run of any prefix. -/
theorem runItems_prefix_ok (l1 l2 : List Item) :
    ∀ reg : Registry, (runItems reg (l1 ++ l2)).err = none →
      (runItems reg l1).err = none := by
  induction l1 with
  | nil => intro reg _; rfl
  | cons it rest ih =>
    intro reg h
    cases it with
    | namespaceDecl e =>
      cases hadd : add_namespace reg e with
      | error err =>
        rw [List.cons_append, runItems] at h
        simp [hadd] at h
      | ok reg2 =>
        rw [List.cons_append, runItems_cons_decl_ok reg reg2 e (rest ++ l2) hadd] at h
        rw [runItems_cons_decl_ok reg reg2 e rest hadd]
        exact ih reg2 h
    | page e =>
      cases hmk : make_wikipage reg e with
      | error err =>
        rw [List.cons_append, runItems] at h
        simp [hmk] at h
      | ok p =>
        rw [List.cons_append, runItems_cons_page_ok reg e p (rest ++ l2) hmk] at h
        simp at h
        rw [runItems_cons_page_ok reg e p rest hmk]
        simp
        exact ih reg h

/-- An error-free run's final registry is obtained by replaying just
the namespace declarations. -/
theorem runItems_registry_eq (l : List Item) :
    ∀ reg : Registry, (runItems reg l).err = none →
      (runItems reg l).registry = foldRegistry reg (declsOf l) := by
  induction l with
  | nil => intro reg _; simp [runItems_nil, declsOf, foldRegistry]
  | cons it rest ih =>
    intro reg h
    cases it with
    | namespaceDecl e =>
      cases hadd : add_namespace reg e with
      | error err =>
        rw [runItems] at h
        simp [hadd] at h
      | ok reg2 =>
        rw [runItems_cons_decl_ok reg reg2 e rest hadd] at h ⊢
        rw [ih reg2 h]
        simp [declsOf, foldRegistry, hadd]
    | page e =>
      cases hmk : make_wikipage reg e with
      | error err =>
        rw [runItems] at h
        simp [hmk] at h
      | ok p =>
        rw [runItems_cons_page_ok reg e p rest hmk] at h ⊢
        simp at h ⊢
        rw [ih reg h]
        simp [declsOf]

/-- An error-free run yields exactly one record per `<page>` element. -/
theorem runItems_pages_length (l : List Item) :
    ∀ reg : Registry, (runItems reg l).err = none →
      (runItems reg l).pages.length = countPages l := by
  induction l with
  | nil => intro reg _; simp [runItems_nil, countPages]
  | cons it rest ih =>
    intro reg h
    cases it with
    | namespaceDecl e =>
      cases hadd : add_namespace reg e with
      | error err =>
        rw [runItems] at h
        simp [hadd] at h
      | ok reg2 =>
        rw [runItems_cons_decl_ok reg reg2 e rest hadd] at h ⊢
        rw [ih reg2 h]
        simp [countPages, List.countP_cons]
    | page e =>
      cases hmk : make_wikipage reg e with
      | error err =>
        rw [runItems] at h
        simp [hmk] at h
      | ok p =>
        rw [runItems_cons_page_ok reg e p rest hmk] at h ⊢
        simp at h ⊢
        rw [ih reg h]
        simp [countPages, List.countP_cons]

theorem declsOf_cons_decl (e : NamespaceElem) (rest : List Item) :
    declsOf (.namespaceDecl e :: rest) = e :: declsOf rest := rfl

theorem declsOf_cons_page (e : PageElem) (rest : List Item) :
    declsOf (.page e :: rest) = declsOf rest := rfl

/-- In an error-free run, each namespace declaration with a fresh key
grows `key2ns` by exactly one entry: with pairwise-distinct declared
keys the final table has one entry per declaration. -/
theorem runItems_key2ns_length (l : List Item) :
    ∀ reg : Registry, (runItems reg l).err = none →
      (declKeys l).Nodup → (∀ k ∈ declKeys l, k ∉ keysOf reg.key2ns) →
      (runItems reg l).registry.key2ns.length =
        reg.key2ns.length + countDecls l := by
  induction l with
  | nil => intro reg _ _ _; simp [runItems_nil, countDecls, declsOf]
  | cons it rest ih =>
    intro reg h hnd hfresh
    cases it with
    | namespaceDecl e =>
      cases hadd : add_namespace reg e with
      | error err =>
        rw [runItems] at h
        simp [hadd] at h
      | ok reg2 =>
        cases hk : e.keyAttr with
        | none => simp [add_namespace, hk] at hadd
        | some k =>
          have hreg2 : reg2 =
              ⟨insertKV reg.key2ns k (e.text.getD ""),
               insertKV reg.ns2key (e.text.getD "") k⟩ := by
            simp [add_namespace, hk] at hadd
            exact hadd.symm
          have hdk : declKeys (.namespaceDecl e :: rest) = k :: declKeys rest := by
            simp [declKeys, declsOf_cons_decl, List.filterMap_cons, hk]
          rw [hdk] at hnd hfresh
          have hkfresh : k ∉ keysOf reg.key2ns :=
            hfresh k (List.mem_cons_self k _)
          have hkeys2 : keysOf reg2.key2ns = k :: keysOf reg.key2ns := by
            rw [hreg2]
            exact insertKV_fresh_keys reg.key2ns k (e.text.getD "") hkfresh
          have hlen2 : reg2.key2ns.length = reg.key2ns.length + 1 := by
            rw [hreg2]
            exact insertKV_fresh_length reg.key2ns k (e.text.getD "") hkfresh
          have hfresh2 : ∀ k2 ∈ declKeys rest, k2 ∉ keysOf reg2.key2ns := by
            intro k2 hk2
            rw [hkeys2]
            intro hmem
            rcases List.mem_cons.mp hmem with he | hm
            · exact (List.nodup_cons.mp hnd).1 (he ▸ hk2)
            · exact hfresh k2 (List.mem_cons_of_mem k hk2) hm
          rw [runItems_cons_decl_ok reg reg2 e rest hadd] at h ⊢
          rw [ih reg2 h (List.nodup_cons.mp hnd).2 hfresh2, hlen2]
          simp [countDecls, declsOf_cons_decl]
          omega
    | page e =>
      cases hmk : make_wikipage reg e with
      | error err =>
        rw [runItems] at h
        simp [hmk] at h
      | ok p =>
        rw [runItems_cons_page_ok reg e p rest hmk] at h ⊢
        simp at h ⊢
        have hdk : declKeys (.page e :: rest) = declKeys rest := by
          simp [declKeys, declsOf_cons_page]
        rw [hdk] at hnd hfresh
        rw [ih reg h hnd hfresh]
        simp [countDecls, declsOf_cons_page]

/-! Concrete fixtures used to instantiate the theorems. -/

/-- A registry holding only the main namespace: key `"0"`, name `""`. -/
def mainOnlyRegistry : Registry := ⟨[("0", "")], [("", "0")]⟩

/-- A page with a `<redirect title="Bar"/>` child and (as in real
MediaWiki dumps) a revision text carrying the `#REDIRECT` marker. -/
def pageElemRedirectFoo : PageElem :=
  ⟨some "Foo", some "0", some "#REDIRECT [[Bar]]", some "wikitext",
   some ⟨some "Bar"⟩⟩

/-- The record `make_wikipage` builds from `pageElemRedirectFoo` under
`mainOnlyRegistry`. -/
def wpRedirectFoo : WikiPage :=
  ⟨some "Foo", some "#REDIRECT [[Bar]]", some "redirect", ⟨"", "0"⟩, some "Bar"⟩

/-- An ordinary content page. -/
def pageElemBody : PageElem :=
  ⟨some "Foo", some "0", some "BODY", some "wikitext", none⟩

/-- The record `make_wikipage` builds from `pageElemBody` under
`mainOnlyRegistry`. -/
def wpBody : WikiPage :=
  ⟨some "Foo", some "BODY", some "wikitext", ⟨"", "0"⟩, none⟩

/-- A page element with no `<title>` child at all. -/
def pageElemNoTitle : PageElem :=
  ⟨none, some "0", some "BODY", some "wikitext", none⟩

/-- Main-namespace declaration followed by a redirect page that also
carries revision text. -/
def redirectFixture : List Item :=
  [.namespaceDecl ⟨some "0", none⟩, .page pageElemRedirectFoo]

/-- Main-namespace declaration followed by a page lacking a title. -/
def noTitleFixture : List Item :=
  [.namespaceDecl ⟨some "0", none⟩, .page pageElemNoTitle]

/-! Claims -/

/-- C1, counterexample: the parser yields, for a page carrying
`<redirect title="Bar"/>` together with revision text, a record whose
`text` is NOT absent — `make_wikipage` never clears `text` for
redirects, so the claim's "text absent" part fails. -/
theorem redirect_page_keeps_revision_text :
    ∃ p ∈ (DumpParser.iter redirectFixture).pages,
      p.redirect = some "Bar" ∧ p.model = some "redirect" ∧ p.text ≠ none := by
  decide

/-- C1, amended: for a page with a `<redirect title="t"/>` child, the
yielded record has `redirect = t` and `model = "redirect"`, but `text`
equals the page's revision text (absent only when no `<text>` element
was present), and `title` is passed through unchanged. -/
theorem make_wikipage_redirect_fields (reg : Registry) (elem : PageElem)
    (r : RedirectElem) (t : String) (p : WikiPage)
    (hr : elem.redirect = some r) (ht : r.titleAttr = some t)
    (hok : make_wikipage reg elem = .ok p) :
    p.redirect = some t ∧ p.model = some "redirect" ∧
    p.text = elem.revText ∧ p.title = elem.title := by
  cases hk : elem.nsKey with
  | none => simp [make_wikipage, hk] at hok
  | some key =>
    cases hl : reg.key2ns.lookup key with
    | none => simp [make_wikipage, hk, hl] at hok
    | some ns =>
      simp [make_wikipage, hk, hl, hr, ht] at hok
      subst hok
      simp

/-- Witness for C1's amended theorem at a concrete input. -/
theorem make_wikipage_redirect_fields_witness :
    wpRedirectFoo.redirect = some "Bar" ∧
    wpRedirectFoo.model = some "redirect" ∧
    wpRedirectFoo.text = pageElemRedirectFoo.revText ∧
    wpRedirectFoo.title = pageElemRedirectFoo.title :=
  make_wikipage_redirect_fields mainOnlyRegistry pageElemRedirectFoo
    ⟨some "Bar"⟩ "Bar" wpRedirectFoo rfl rfl rfl

/-- C2, counterexample: a page element with no `<title>` child is
assembled without any error and a record with `title = none` is
yielded — there is no missing-title check in `make_wikipage`. -/
theorem missing_title_yields_record :
    (DumpParser.iter noTitleFixture).err = none ∧
    ∃ p ∈ (DumpParser.iter noTitleFixture).pages, p.title = none := by
  decide

/-- C2, amended: the title is passed through unchecked — a page whose
title child is absent or empty, whose namespace key resolves and which
has no redirect child, still yields a record, with `title` equal to the
raw `findtext` result (`none` resp. `""`). -/
theorem make_wikipage_title_unchecked (reg : Registry) (elem : PageElem)
    (key ns : String)
    (htitle : elem.title = none ∨ elem.title = some "")
    (hk : elem.nsKey = some key) (hl : reg.key2ns.lookup key = some ns)
    (hred : elem.redirect = none) :
    make_wikipage reg elem =
      .ok ⟨elem.title, elem.revText, elem.revModel, ⟨ns, key⟩, none⟩ := by
  simp [make_wikipage, hk, hl, hred]

/-- Witness for C2's amended theorem at a concrete input. -/
theorem make_wikipage_title_unchecked_witness :
    make_wikipage mainOnlyRegistry pageElemNoTitle =
      .ok ⟨none, some "BODY", some "wikitext", ⟨"", "0"⟩, none⟩ :=
  make_wikipage_title_unchecked mainOnlyRegistry pageElemNoTitle "0" ""
    (Or.inl rfl) rfl rfl rfl

/-- C3: resolving a page whose `<ns>` text was never registered raises
(`self.key2ns[key]` is a `KeyError`), rather than skipping the page or
yielding a record. -/
theorem make_wikipage_unknown_nskey_error (reg : Registry) (elem : PageElem)
    (key : String) (hk : elem.nsKey = some key)
    (hl : reg.key2ns.lookup key = none) :
    make_wikipage reg elem = .error (.unknownNamespaceKey (some key)) := by
  simp [make_wikipage, hk, hl]

/-- Witness for C3 at a concrete input: key `"0"` against the empty
registry. -/
theorem make_wikipage_unknown_nskey_error_witness :
    make_wikipage Registry.empty pageElemBody =
      .error (.unknownNamespaceKey (some "0")) :=
  make_wikipage_unknown_nskey_error Registry.empty pageElemBody "0" rfl rfl

/-- C4: for a page element without a `<redirect>` child, the yielded
record's `text` is the revision text (absent when no `<text>` element
was present), `model` is the declared revision model, and `redirect` is
absent. -/
theorem make_wikipage_no_redirect_fields (reg : Registry) (elem : PageElem)
    (p : WikiPage) (hred : elem.redirect = none)
    (hok : make_wikipage reg elem = .ok p) :
    p.text = elem.revText ∧ p.model = elem.revModel ∧ p.redirect = none := by
  cases hk : elem.nsKey with
  | none => simp [make_wikipage, hk] at hok
  | some key =>
    cases hl : reg.key2ns.lookup key with
    | none => simp [make_wikipage, hk, hl] at hok
    | some ns =>
      simp [make_wikipage, hk, hl, hred] at hok
      subst hok
      simp

/-- Witness for C4 at a concrete input. -/
theorem make_wikipage_no_redirect_fields_witness :
    wpBody.text = pageElemBody.revText ∧
    wpBody.model = pageElemBody.revModel ∧ wpBody.redirect = none :=
  make_wikipage_no_redirect_fields mainOnlyRegistry pageElemBody wpBody rfl rfl

/-- C5, counterexample: the claimed invariant "redirect set ⇔ text
absent ∧ model = redirect" fails on a yielded record: a redirect page
with revision text has `redirect` set but `text` present. -/
theorem redirect_invariant_fails :
    ¬ ∀ p ∈ (DumpParser.iter redirectFixture).pages,
        (p.redirect.isSome ↔ p.text = none ∧ p.model = some "redirect") := by
  decide

/-- C5, amended: on every record built by `make_wikipage`, `redirect`
is set iff the page element had a `<redirect>` child, and whenever it
is set `model` is the sentinel `"redirect"`; `text` is never cleared,
so the "text absent" half of the claimed invariant does not hold. -/
theorem redirect_set_implies_model_redirect (reg : Registry) (elem : PageElem)
    (p : WikiPage) (hok : make_wikipage reg elem = .ok p) :
    (p.redirect.isSome ↔ (elem.redirect).isSome) ∧
    (p.redirect.isSome → p.model = some "redirect") := by
  cases hk : elem.nsKey with
  | none => simp [make_wikipage, hk] at hok
  | some key =>
    cases hl : reg.key2ns.lookup key with
    | none => simp [make_wikipage, hk, hl] at hok
    | some ns =>
      cases hr : elem.redirect with
      | none =>
        simp [make_wikipage, hk, hl, hr] at hok
        subst hok
        simp
      | some r =>
        cases ht : r.titleAttr with
        | none => simp [make_wikipage, hk, hl, hr, ht] at hok
        | some t =>
          simp [make_wikipage, hk, hl, hr, ht] at hok
          subst hok
          simp

/-- Witness for C5's amended theorem at a concrete input. -/
theorem redirect_set_implies_model_redirect_witness :
    (wpRedirectFoo.redirect.isSome ↔ (pageElemRedirectFoo.redirect).isSome) ∧
    (wpRedirectFoo.redirect.isSome → wpRedirectFoo.model = some "redirect") :=
  redirect_set_implies_model_redirect mainOnlyRegistry pageElemRedirectFoo
    wpRedirectFoo rfl

/-- C7: a completed namespace declaration with a `key` attribute and
text content inserts both the forward mapping `key→name` into `key2ns`
and the reverse mapping `name→key` into `ns2key`. -/
theorem add_namespace_inserts_both (reg : Registry) (e : NamespaceElem)
    (k name : String) (hk : e.keyAttr = some k) (ht : e.text = some name) :
    ∃ reg2, add_namespace reg e = .ok reg2 ∧
      reg2.key2ns.lookup k = some name ∧
      reg2.ns2key.lookup name = some k := by
  refine ⟨⟨insertKV reg.key2ns k name, insertKV reg.ns2key name k⟩, ?_, ?_, ?_⟩
  · simp [add_namespace, hk, ht]
  · exact insertKV_lookup_self reg.key2ns k name
  · exact insertKV_lookup_self reg.ns2key name k

/-- Witness for C7 at a concrete input. -/
theorem add_namespace_inserts_both_witness :
    ∃ reg2,
      add_namespace Registry.empty ⟨some "10", some "Template"⟩ = .ok reg2 ∧
      reg2.key2ns.lookup "10" = some "Template" ∧
      reg2.ns2key.lookup "Template" = some "10" :=
  add_namespace_inserts_both Registry.empty ⟨some "10", some "Template"⟩
    "10" "Template" rfl rfl

/-- C8: a namespace declaration without a `key` attribute raises
(`elem.attrib["key"]` is a `KeyError`) before anything is inserted, and
the run terminates at that point: no records are yielded from the rest
of the dump and the registry is left unchanged. -/
theorem add_namespace_missing_key_fatal (reg : Registry) (e : NamespaceElem)
    (rest : List Item) (hk : e.keyAttr = none) :
    add_namespace reg e = .error .missingKeyAttr ∧
    runItems reg (.namespaceDecl e :: rest) =
      ⟨[], reg, some .missingKeyAttr⟩ := by
  have h1 : add_namespace reg e = .error .missingKeyAttr := by
    simp [add_namespace, hk]
  exact ⟨h1, by simp [runItems, h1]⟩

/-- Witness for C8 at a concrete input: a keyless declaration followed
by an otherwise well-formed page yields no records. -/
theorem add_namespace_missing_key_fatal_witness :
    add_namespace Registry.empty ⟨none, some "Template"⟩ =
      .error .missingKeyAttr ∧
    runItems Registry.empty
        [.namespaceDecl ⟨none, some "Template"⟩, .page pageElemBody] =
      ⟨[], Registry.empty, some .missingKeyAttr⟩ :=
  add_namespace_missing_key_fatal Registry.empty ⟨none, some "Template"⟩
    [.page pageElemBody] rfl

/-- C9: a namespace declaration whose text is absent (self-closing tag)
stores the empty string as the name — `ns = elem.text or ""` — so the
forward mapping holds a string for every registered key. -/
theorem add_namespace_absent_text_stores_empty (reg : Registry)
    (e : NamespaceElem) (k : String)
    (hk : e.keyAttr = some k) (ht : e.text = none) :
    ∃ reg2, add_namespace reg e = .ok reg2 ∧
      reg2.key2ns.lookup k = some "" := by
  refine ⟨⟨insertKV reg.key2ns k "", insertKV reg.ns2key "" k⟩, ?_, ?_⟩
  · simp [add_namespace, hk, ht]
  · exact insertKV_lookup_self reg.key2ns k ""

/-- Witness for C9 at a concrete input: the default-namespace
declaration `<namespace key="0"/>`. -/
theorem add_namespace_absent_text_stores_empty_witness :
    ∃ reg2, add_namespace Registry.empty ⟨some "0", none⟩ = .ok reg2 ∧
      reg2.key2ns.lookup "0" = some "" :=
  add_namespace_absent_text_stores_empty Registry.empty ⟨some "0", none⟩
    "0" rfl rfl

/-- A well-formed fixture: two namespace declarations with distinct
keys followed by two content pages. -/
def wellFormedFixture : List Item :=
  [.namespaceDecl ⟨some "0", none⟩,
   .namespaceDecl ⟨some "10", some "Template"⟩,
   .page ⟨some "Foo", some "0", some "BODY", some "wikitext", none⟩,
   .page ⟨some "Template:Bar", some "10", some "TBODY", some "wikitext", none⟩]

/-- C6: an error-free iteration over a dump with `P` page elements and
`N` namespace declarations (with pairwise-distinct keys, as in a
well-formed dump) yields exactly `P` records — one per completed page
subtree, the records of any prefix first and in order — and leaves the
registry with exactly `N` distinct keys. -/
theorem run_yields_P_pages_and_N_keys (items : List Item)
    (hok : (DumpParser.iter items).err = none)
    (hnd : (declKeys items).Nodup) :
    (DumpParser.iter items).pages.length = countPages items ∧
    (DumpParser.iter items).registry.key2ns.length = countDecls items ∧
    ∀ l1 l2, items = l1 ++ l2 →
      (DumpParser.iter items).pages =
        (DumpParser.iter l1).pages ++
          (runItems (DumpParser.iter l1).registry l2).pages := by
  refine ⟨runItems_pages_length items Registry.empty hok, ?_, ?_⟩
  · have h := runItems_key2ns_length items Registry.empty hok hnd
      (by intro k _; simp [keysOf, Registry.empty])
    simpa [DumpParser.iter, Registry.empty] using h
  · intro l1 l2 hsplit
    subst hsplit
    have hpre := runItems_prefix_ok l1 l2 Registry.empty hok
    rw [DumpParser.iter, DumpParser.iter,
        runItems_append l1 l2 Registry.empty hpre]

/-- Witness for C6 on `wellFormedFixture` (`P = 2`, `N = 2`). -/
theorem run_yields_P_pages_and_N_keys_witness :
    (DumpParser.iter wellFormedFixture).pages.length =
      countPages wellFormedFixture ∧
    (DumpParser.iter wellFormedFixture).registry.key2ns.length =
      countDecls wellFormedFixture ∧
    ∀ l1 l2, wellFormedFixture = l1 ++ l2 →
      (DumpParser.iter wellFormedFixture).pages =
        (DumpParser.iter l1).pages ++
          (runItems (DumpParser.iter l1).registry l2).pages :=
  run_yields_P_pages_and_N_keys wellFormedFixture (by decide) (by decide)

/-- First error-free prefix for the C10 witness: one declaration and
one content page. -/
def indPre1 : List Item :=
  [.namespaceDecl ⟨some "0", none⟩,
   .page ⟨some "A", some "0", some "ABODY", some "wikitext", none⟩]

/-- Second error-free prefix for the C10 witness: the same declaration
but entirely different earlier pages (two of them, one a redirect). -/
def indPre2 : List Item :=
  [.namespaceDecl ⟨some "0", none⟩,
   .page ⟨some "B", some "0", some "BBODY", some "css", none⟩,
   .page ⟨some "C", some "0", some "#REDIRECT [[D]]", some "wikitext",
          some ⟨some "D"⟩⟩]

/-- C10: iteration is per-page independent — after any two error-free
prefixes that declare the same namespaces (in the same order) but may
contain completely different earlier pages, the registry is identical,
and the remainder of the record sequence produced for a page element
and everything after it is identical.  (Determinism itself is
definitional here: `DumpParser.iter` is a pure function of the element
sequence.) -/
theorem page_record_independent_of_earlier_pages
    (pre1 pre2 : List Item) (e : PageElem) (tail : List Item)
    (h1 : (DumpParser.iter pre1).err = none)
    (h2 : (DumpParser.iter pre2).err = none)
    (hd : declsOf pre1 = declsOf pre2) :
    (DumpParser.iter pre1).registry = (DumpParser.iter pre2).registry ∧
    (DumpParser.iter (pre1 ++ .page e :: tail)).pages.drop
        (DumpParser.iter pre1).pages.length =
      (DumpParser.iter (pre2 ++ .page e :: tail)).pages.drop
        (DumpParser.iter pre2).pages.length := by
  have hreg : (DumpParser.iter pre1).registry = (DumpParser.iter pre2).registry := by
    rw [DumpParser.iter, DumpParser.iter, runItems_registry_eq pre1 Registry.empty h1,
        runItems_registry_eq pre2 Registry.empty h2, hd]
  refine ⟨hreg, ?_⟩
  have h1r : (runItems Registry.empty pre1).err = none := h1
  have h2r : (runItems Registry.empty pre2).err = none := h2
  have hregr : (runItems Registry.empty pre1).registry =
      (runItems Registry.empty pre2).registry := hreg
  simp only [DumpParser.iter]
  rw [runItems_append pre1 (.page e :: tail) Registry.empty h1r,
      runItems_append pre2 (.page e :: tail) Registry.empty h2r]
  simp only [List.drop_left]
  rw [hregr]

/-- Witness for C10: `indPre1` and `indPre2` share their namespace
declarations but have different earlier pages; the record sequence from
the appended page onward coincides. -/
theorem page_record_independent_witness :
    (DumpParser.iter indPre1).registry = (DumpParser.iter indPre2).registry ∧
    (DumpParser.iter (indPre1 ++ .page pageElemBody :: [])).pages.drop
        (DumpParser.iter indPre1).pages.length =
      (DumpParser.iter (indPre2 ++ .page pageElemBody :: [])).pages.drop
        (DumpParser.iter indPre2).pages.length :=
  page_record_independent_of_earlier_pages indPre1 indPre2 pageElemBody []
    (by decide) (by decide) (by decide)

end WikitextDump
